import Mathlib

/-!
Verification of the ezyr-backend OAuth token lifecycle and generic
block-dispatch mechanism.

The JavaScript source (an Express server plus a static `blockConfigs`
registry) is embedded shallowly:

* JavaScript runtime values that the handlers branch on are modelled by
  `JSVal` (with a constructor for `undefined`); objects are association lists in
  insertion order (well-formed JS objects have unique keys).
* JavaScript truthiness (`!x`, `a || b`) is modelled by `truthy`, `jsOrS`
  and `jsOrI`: the falsy values of the relevant types are `""`, `0`,
  `false`, `null` and `undefined`.
* Time is in milliseconds, as in `Date.now()`.
* Each HTTP handler becomes a pure function of its request body plus an
  explicit environment holding the responses of the external collaborators
  (the OAuth provider, the Airtable REST API, the Google SDKs); the handler
  returns the HTTP response it sends and the list of external calls it
  issues.
-/

/-- A JavaScript runtime value, as far as the handlers inspect one.
Objects are association lists in insertion order. -/
inductive JSVal : Type where
  | str (s : String)
  | num (n : Int)
  | bool (b : Bool)
  | null
  | undefined
  | arr (xs : List JSVal)
  | obj (fields : List (String × JSVal))

/-- A JavaScript object: keys to values, in insertion order. -/
abbrev JSObj : Type := List (String × JSVal)

/-- Association-list lookup: the value of a key in a JS object. -/
def assoc {α : Type} : List (String × α) → String → Option α
  | [], _ => none
  | (k, v) :: rest, key => if k = key then some v else assoc rest key

/-- `o[key]` as the handlers read it: `none` models `undefined`. -/
def jsGet (o : JSObj) (key : String) : Option JSVal :=
  assoc o key

/-- `o[key] = v`: replace the value in place if the key exists, else append
(JS property insertion order). -/
def jsSet (o : JSObj) (key : String) (v : JSVal) : JSObj :=
  match o with
  | [] => [(key, v)]
  | (k, w) :: rest => if k = key then (key, v) :: rest else (k, w) :: jsSet rest key v

/-- JavaScript truthiness of a value. -/
def truthy : JSVal → Bool
  | .str s => !(s == "")
  | .num n => !(n == 0)
  | .bool b => b
  | .null => false
  | .undefined => false
  | .arr _ => true
  | .obj _ => true

/-- Truthiness of a possibly-absent value (`undefined` is falsy). -/
def truthyV : Option JSVal → Bool
  | none => false
  | some v => truthy v

/-- Truthiness of a possibly-absent string field (`""` is falsy). -/
def truthyS : Option String → Bool
  | none => false
  | some s => !(s == "")

/-- Truthiness of a possibly-absent number field (`0` is falsy). -/
def truthyI : Option Int → Bool
  | none => false
  | some n => !(n == 0)

/-- `a || b` on a possibly-absent string with a definite fallback. -/
def jsOrS : Option String → String → String
  | none, d => d
  | some s, d => if s == "" then d else s

/-- `a || b` on a possibly-absent number with a definite fallback. -/
def jsOrI : Option Int → Int → Int
  | none, d => d
  | some n, d => if n == 0 then d else n

/-- An external call the server makes, used to state no-network-call and
exactly-one-call properties.  `tokenRefresh` is the OAuth token endpoint
call that `authClient.refreshAccessToken()` performs. -/
inductive ExtCall : Type where
  | tokenRefresh
  | gmailList
  | gmailGetDetail (id : String)
  | sheetsGet
  | sheetsAppend (range : String) (values : Option JSVal)
  | sheetsUpdate (range : String) (values : Option JSVal)
  | sheetsBatchDelete (startIndex stopIndex : Option Int)
  | http (method url : String) (headers : List (String × String)) (payload : Option JSVal)

/-- Does an external call hit the OAuth token endpoint? -/
def isTokenRefreshCall : ExtCall → Bool
  | .tokenRefresh => true
  | _ => false

/-! ## POST /oauth/refresh -/

/-- Body of a POST /oauth/refresh request; absent fields are `none`. -/
structure RefreshReq : Type where
  refresh_token : Option String
  client_id : Option String
  client_secret : Option String

/-- The `credentials` object `authClient.refreshAccessToken()` resolves
with; each field may be absent. -/
structure ProviderCreds : Type where
  access_token : Option String
  refresh_token : Option String
  expiry_date : Option Int
  token_type : Option String

/-- The `tokenData` bundle the refresh (and callback) handler sends on
success. -/
structure TokenData : Type where
  client_id : String
  client_secret : String
  access_token : Option String
  refresh_token : String
  expires_at : Int
  token_type : String

/-- The JSON response of POST /oauth/refresh. -/
structure RefreshResponse : Type where
  status : Nat
  error : Option String
  details : Option String
  requiresReauth : Option Bool
  token : Option TokenData

/-- The POST /oauth/refresh handler.  `provider` is the outcome of
`refreshAccessToken()` (`Except.error` carries `error.message`), `now` is
`Date.now()` in milliseconds.  Returns the response and the external calls
made. -/
def oauthRefresh (req : RefreshReq) (provider : Except String ProviderCreds)
    (now : Int) : RefreshResponse × List ExtCall :=
  if !(truthyS req.refresh_token) || !(truthyS req.client_id) || !(truthyS req.client_secret) then
    ({ status := 400, error := some "Missing refresh_token or client credentials",
       details := none, requiresReauth := none, token := none }, [])
  else
    match provider with
    | .ok credentials =>
      ({ status := 200, error := none, details := none, requiresReauth := none,
         token := some {
           client_id := req.client_id.getD "",
           client_secret := req.client_secret.getD "",
           access_token := credentials.access_token,
           refresh_token := jsOrS credentials.refresh_token (req.refresh_token.getD ""),
           expires_at := jsOrI credentials.expiry_date (now + 3600 * 1000),
           token_type := jsOrS credentials.token_type "Bearer" } }, [.tokenRefresh])
    | .error msg =>
      ({ status := 400, error := some "Token refresh failed", details := some msg,
         requiresReauth := some true, token := none }, [.tokenRefresh])

/-! ## isTokenExpired -/

/-- The five-minute buffer window (`bufferTime`), in milliseconds. -/
def bufferTime : Int := 5 * 60 * 1000

/-- A stored token bundle as far as `isTokenExpired` inspects it:
`expires_at` may be absent. -/
structure StoredToken : Type where
  expires_at : Option Int

/-- `isTokenExpired(tokenData)`: `if (!tokenData.expires_at) return false;
return Date.now() > tokenData.expires_at - bufferTime`. -/
def isTokenExpired (now : Int) (tokenData : StoredToken) : Bool :=
  if !(truthyI tokenData.expires_at) then false
  else decide (now > tokenData.expires_at.getD 0 - bufferTime)

/-! ## Theorems for the refresh handler and the expiry predicate -/

/-- C1: on a successful POST /oauth/refresh with `refresh_token`,
`client_id` and `client_secret` present, the returned bundle has
`access_token` from the provider; `refresh_token` the provider-returned one
when the provider returned one (a nonempty token — the JS `||` treats an
empty string like an absent one) and otherwise the caller-supplied token;
`expires_at` the provider-returned expiry when present (and nonzero) and
otherwise now + 3600 seconds; `token_type` the provider-returned type when
present (and nonempty) and otherwise "Bearer". -/
theorem refresh_success_bundle (req : RefreshReq) (credentials : ProviderCreds)
    (now : Int) (rt : String)
    (hrt : req.refresh_token = some rt) (hrtne : rt ≠ "")
    (hci : truthyS req.client_id = true) (hcs : truthyS req.client_secret = true) :
    (oauthRefresh req (.ok credentials) now).1.status = 200 ∧
    ∃ t, (oauthRefresh req (.ok credentials) now).1.token = some t ∧
      t.access_token = credentials.access_token ∧
      (∀ s, credentials.refresh_token = some s → s ≠ "" → t.refresh_token = s) ∧
      ((credentials.refresh_token = none ∨ credentials.refresh_token = some "") →
        t.refresh_token = rt) ∧
      (∀ e, credentials.expiry_date = some e → e ≠ 0 → t.expires_at = e) ∧
      ((credentials.expiry_date = none ∨ credentials.expiry_date = some 0) →
        t.expires_at = now + 3600 * 1000) ∧
      (∀ s, credentials.token_type = some s → s ≠ "" → t.token_type = s) ∧
      ((credentials.token_type = none ∨ credentials.token_type = some "") →
        t.token_type = "Bearer") := by
  have h1 : truthyS req.refresh_token = true := by
    simp [truthyS, hrt, hrtne]
  have hg : (!(truthyS req.refresh_token) || !(truthyS req.client_id)
      || !(truthyS req.client_secret)) = false := by
    simp [h1, hci, hcs]
  have hres : (oauthRefresh req (.ok credentials) now).1 =
      { status := 200, error := none, details := none, requiresReauth := none,
        token := some {
          client_id := req.client_id.getD "",
          client_secret := req.client_secret.getD "",
          access_token := credentials.access_token,
          refresh_token := jsOrS credentials.refresh_token (req.refresh_token.getD ""),
          expires_at := jsOrI credentials.expiry_date (now + 3600 * 1000),
          token_type := jsOrS credentials.token_type "Bearer" } } := by
    simp [oauthRefresh, hg]
  rw [hres]
  refine ⟨rfl, _, rfl, rfl, ?_, ?_, ?_, ?_, ?_, ?_⟩
  · intro s hs hne
    simp [jsOrS, hs, hne]
  · intro h
    rcases h with h | h <;> simp [jsOrS, h, hrt]
  · intro e he hne
    simp [jsOrI, he, hne]
  · intro h
    rcases h with h | h <;> simp [jsOrI, h]
  · intro s hs hne
    simp [jsOrS, hs, hne]
  · intro h
    rcases h with h | h <;> simp [jsOrS, h]

/-- Witness for C1: a concrete successful refresh where the provider
returned no refresh token, an expiry of 999 and no token type. -/
theorem refresh_success_bundle_witness :
    (oauthRefresh { refresh_token := some "rt0", client_id := some "ci", client_secret := some "cs" }
      (.ok { access_token := some "at1", refresh_token := none, expiry_date := some 999,
             token_type := none }) 5).1.status = 200 ∧
    (oauthRefresh { refresh_token := some "rt0", client_id := some "ci", client_secret := some "cs" }
      (.ok { access_token := some "at1", refresh_token := none, expiry_date := some 999,
             token_type := none }) 5).1.token =
      some { client_id := "ci", client_secret := "cs", access_token := some "at1",
             refresh_token := "rt0", expires_at := 999, token_type := "Bearer" } := by
  have h := refresh_success_bundle
    { refresh_token := some "rt0", client_id := some "ci", client_secret := some "cs" }
    { access_token := some "at1", refresh_token := none, expiry_date := some 999,
      token_type := none } 5 "rt0" rfl (by decide) (by decide) (by decide)
  exact ⟨h.1, by rfl⟩

/-- C2 counterexample: the bundle `{expires_at: 0}` has an `expires_at`,
and now = 1 is past `expires_at - bufferTime`, yet `isTokenExpired` is
false: JS truthiness makes `!tokenData.expires_at` treat the present value
0 like an absent one. -/
theorem isTokenExpired_zero_counterexample :
    isTokenExpired 1 { expires_at := some 0 } = false ∧
    ({ expires_at := some 0 } : StoredToken).expires_at = some 0 ∧
    ((1 : Int) > 0 - bufferTime) := by
  refine ⟨by decide, rfl, by norm_num [bufferTime]⟩

/-- C2 amended: `isTokenExpired` holds iff the bundle has a nonzero
`expires_at` and now is strictly past `expires_at - bufferTime`; a bundle
whose `expires_at` is absent — or 0, which JS truthiness treats the same —
is never considered expired. -/
theorem isTokenExpired_iff (now : Int) (t : StoredToken) :
    isTokenExpired now t = true ↔
      ∃ e, t.expires_at = some e ∧ e ≠ 0 ∧ now > e - bufferTime := by
  cases h : t.expires_at with
  | none => simp [isTokenExpired, truthyI, h]
  | some e =>
    by_cases he : e = 0
    · subst he
      simp [isTokenExpired, truthyI, h]
    · simp [isTokenExpired, truthyI, h, he]

/-- C8 counterexample: a POST /oauth/refresh with no `refresh_token` fails
with status 400, and the response carries no `requiresReauth` flag — so
not every refresh failure surfaces `requiresReauth:true`. -/
theorem refresh_missing_fields_no_reauth :
    (oauthRefresh { refresh_token := none, client_id := some "ci", client_secret := some "cs" }
      (.ok { access_token := none, refresh_token := none, expiry_date := none,
             token_type := none }) 0).1.status = 400 ∧
    (oauthRefresh { refresh_token := none, client_id := some "ci", client_secret := some "cs" }
      (.ok { access_token := none, refresh_token := none, expiry_date := none,
             token_type := none }) 0).1.requiresReauth = none := by
  exact ⟨rfl, rfl⟩

/-- C8 amended: every failure of the refresh attempt itself — a request
with all three fields present whose provider call does not succeed —
carries `requiresReauth:true`; only the input-validation 400 (missing
`refresh_token` or client credentials) lacks the flag. -/
theorem refresh_failure_requiresReauth (req : RefreshReq)
    (provider : Except String ProviderCreds) (now : Int)
    (hrt : truthyS req.refresh_token = true)
    (hci : truthyS req.client_id = true)
    (hcs : truthyS req.client_secret = true)
    (hfail : (oauthRefresh req provider now).1.status ≠ 200) :
    (oauthRefresh req provider now).1.requiresReauth = some true := by
  have hg : (!(truthyS req.refresh_token) || !(truthyS req.client_id)
      || !(truthyS req.client_secret)) = false := by
    simp [hrt, hci, hcs]
  cases provider with
  | ok credentials => exact absurd (by simp [oauthRefresh, hg]) hfail
  | error msg => simp [oauthRefresh, hg]

/-- Witness for C8 amended: a concrete rejected refresh carries the flag. -/
theorem refresh_failure_requiresReauth_witness :
    (oauthRefresh { refresh_token := some "rt0", client_id := some "ci", client_secret := some "cs" }
      (.error "invalid_grant") 0).1.requiresReauth = some true := by
  exact refresh_failure_requiresReauth
    { refresh_token := some "rt0", client_id := some "ci", client_secret := some "cs" }
    (.error "invalid_grant") 0 (by decide) (by decide) (by decide) (by decide)

/-! ## POST /block/execute: credentials, registry and dispatch -/

/-- The `credentials` object of a POST /block/execute body: every spelling
the handler or a strategy reads.  `refresh_token` and `expires_at` are
carried but never read by the dispatch path. -/
structure Credentials : Type where
  clientId : Option String
  client_id : Option String
  secretId : Option String
  client_secret : Option String
  accessToken : Option String
  access_token : Option String
  apiKey : Option String
  refresh_token : Option String
  expires_at : Option Int
deriving DecidableEq, Repr

/-- A credentials object with every field absent (`{}`). -/
def emptyCreds : Credentials :=
  { clientId := none, client_id := none, secretId := none, client_secret := none,
    accessToken := none, access_token := none, apiKey := none,
    refresh_token := none, expires_at := none }

/-- The three alias assignments the native branch performs:
`if (!credentials.clientId && credentials.client_id) credentials.clientId = credentials.client_id;`
`if (!credentials.secretId && credentials.client_secret) credentials.secretId = credentials.client_secret;`
`if (!credentials.access_token) credentials.access_token = credentials.accessToken;` -/
def normCreds (c : Credentials) : Credentials :=
  let c1 := if !(truthyS c.clientId) && truthyS c.client_id then
    { c with clientId := c.client_id } else c
  let c2 := if !(truthyS c1.secretId) && truthyS c1.client_secret then
    { c1 with secretId := c1.client_secret } else c1
  if !(truthyS c2.access_token) then { c2 with access_token := c2.accessToken } else c2

/-- `Object.values(x)`: the values of an object, the elements of an array,
and nothing for a primitive. -/
def objValues : JSVal → List JSVal
  | .obj kvs => kvs.map (fun kv => kv.2)
  | .arr xs => xs
  | _ => []

/-- The input normalization of the native branch:
`params.dataFields = params.dataFields || params.fields || params;`
`params.valuesArray = params.valuesArray || Object.values(params.dataFields || params);`
When neither `dataFields` nor `fields` is truthy, JS assigns `params`
itself, creating a live self-reference; it is modelled here by a snapshot
of `params` taken before the assignment.  No verified claim inspects the
contents of `valuesArray` in that case. -/
def normalizeParams (params : JSObj) : JSObj :=
  let dfv : JSVal :=
    if truthyV (jsGet params "dataFields") then (jsGet params "dataFields").getD .undefined
    else if truthyV (jsGet params "fields") then (jsGet params "fields").getD .undefined
    else .obj params
  let p1 := jsSet params "dataFields" dfv
  let vav : JSVal :=
    if truthyV (jsGet p1 "valuesArray") then (jsGet p1 "valuesArray").getD .undefined
    else .arr (objValues dfv)
  jsSet p1 "valuesArray" vav

/-- Template-literal coercion of a possibly-absent value, as in
`${inputs.baseId}`.  Arrays join their elements; that case is approximated
(no verified claim builds a URL from an array). -/
def jsTemplate : Option JSVal → String
  | none => "undefined"
  | some (.str s) => s
  | some (.num n) => toString n
  | some (.bool b) => if b then "true" else "false"
  | some .null => "null"
  | some .undefined => "undefined"
  | some (.arr _) => ""
  | some (.obj _) => "[object Object]"

/-- Template-literal coercion of a possibly-absent string, as in
`Bearer ${credentials.apiKey}`. -/
def tmplS : Option String → String
  | none => "undefined"
  | some s => s

/-- `Number(x)` coercion; `none` models NaN.  String parsing handles the
whitespace-is-zero rule and integer strings; other numeric string forms
are approximated as NaN (no verified claim exercises them). -/
def jsNumber : Option JSVal → Option Int
  | none => none
  | some (.num n) => some n
  | some (.bool b) => some (if b then 1 else 0)
  | some .null => some 0
  | some .undefined => none
  | some (.str s) => if s.trim = "" then some 0 else s.trim.toInt?
  | some (.arr _) => none
  | some (.obj _) => none

/-- `{ ...inputs.dataFields }`: spreading an object copies its fields;
spreading an absent or primitive value yields no fields. -/
def jsSpread : Option JSVal → JSVal
  | some (.obj kvs) => .obj kvs
  | _ => .obj []

/-- A templated REST operation of `blockConfigs`: pure data plus builder
functions, exactly the fields the dispatcher reads.  Every operation of
this registry has a `requiredFields` list; `transform` is `null` or absent
everywhere, both falsy, so it is `none` on every operation. -/
structure TemplatedOp : Type where
  service : String
  method : String
  buildUrl : JSObj → Option String → String
  buildHeaders : Credentials → List (String × String)
  buildPayload : Option (JSObj → JSVal)
  requiredFields : List String
  responseField : Option String
  transform : Option (JSVal → JSVal)

/-- A native (`execute`) operation of `blockConfigs`. -/
inductive NativeOp : Type where
  | gmailFetch
  | sheetsFetch
  | sheetsCreate
  | sheetsUpdate
  | sheetsDelete
deriving DecidableEq, Repr

/-- An operation strategy: the handler branches on whether `op.execute`
exists. -/
inductive Op : Type where
  | native (n : NativeOp)
  | templated (t : TemplatedOp)

/-- A block of the registry: named operations plus an optional static
config (`block.config || {}` — only `baseurl` is ever read). -/
structure Block : Type where
  operations : List (String × Op)
  baseurl : Option String

/-- The `airtable-crud.fetch` operation. -/
def airtableFetchOp : TemplatedOp :=
  { service := "airtable", method := "GET",
    buildUrl := fun inputs baseurl =>
      tmplS baseurl ++ "/" ++ jsTemplate (jsGet inputs "baseId") ++ "/" ++
        jsTemplate (jsGet inputs "tableName"),
    buildHeaders := fun credentials =>
      [("Authorization", "Bearer " ++ tmplS credentials.apiKey)],
    buildPayload := none,
    requiredFields := ["baseId", "tableName"],
    responseField := some "records",
    transform := none }

/-- The `airtable-crud.create` operation. -/
def airtableCreateOp : TemplatedOp :=
  { service := "airtable", method := "POST",
    buildUrl := fun inputs baseurl =>
      tmplS baseurl ++ "/" ++ jsTemplate (jsGet inputs "baseId") ++ "/" ++
        jsTemplate (jsGet inputs "tableName"),
    buildHeaders := fun credentials =>
      [("Authorization", "Bearer " ++ tmplS credentials.apiKey),
       ("Content-Type", "application/json")],
    buildPayload := some (fun inputs => .obj [("fields", jsSpread (jsGet inputs "dataFields"))]),
    requiredFields := ["baseId", "tableName"],
    responseField := none,
    transform := none }

/-- The `airtable-crud.update` operation. -/
def airtableUpdateOp : TemplatedOp :=
  { service := "airtable", method := "PATCH",
    buildUrl := fun inputs baseurl =>
      tmplS baseurl ++ "/" ++ jsTemplate (jsGet inputs "baseId") ++ "/" ++
        jsTemplate (jsGet inputs "tableName") ++ "/" ++ jsTemplate (jsGet inputs "recordId"),
    buildHeaders := fun credentials =>
      [("Authorization", "Bearer " ++ tmplS credentials.apiKey),
       ("Content-Type", "application/json")],
    buildPayload := some (fun inputs => .obj [("fields", jsSpread (jsGet inputs "dataFields"))]),
    requiredFields := ["baseId", "tableName", "recordId"],
    responseField := none,
    transform := none }

/-- The `airtable-crud.delete` operation. -/
def airtableDeleteOp : TemplatedOp :=
  { service := "airtable", method := "DELETE",
    buildUrl := fun inputs baseurl =>
      tmplS baseurl ++ "/" ++ jsTemplate (jsGet inputs "baseId") ++ "/" ++
        jsTemplate (jsGet inputs "tableName") ++ "/" ++ jsTemplate (jsGet inputs "recordId"),
    buildHeaders := fun credentials =>
      [("Authorization", "Bearer " ++ tmplS credentials.apiKey)],
    buildPayload := none,
    requiredFields := ["baseId", "tableName", "recordId"],
    responseField := none,
    transform := none }

/-- The `airtable-crud` block. -/
def airtableBlock : Block :=
  { operations :=
      [("fetch", .templated airtableFetchOp),
       ("create", .templated airtableCreateOp),
       ("update", .templated airtableUpdateOp),
       ("delete", .templated airtableDeleteOp)],
    baseurl := some "https://api.airtable.com/v0" }

/-- The `gmail_search_emails` block (no config). -/
def gmailBlock : Block :=
  { operations := [("fetch", .native .gmailFetch)], baseurl := none }

/-- The `google-sheets-crud` block (no config). -/
def sheetsBlock : Block :=
  { operations :=
      [("fetch", .native .sheetsFetch),
       ("create", .native .sheetsCreate),
       ("update", .native .sheetsUpdate),
       ("delete", .native .sheetsDelete)],
    baseurl := none }

/-- The static registry `blockConfigs`, keyed by blockId. -/
def blockConfigs : List (String × Block) :=
  [("airtable-crud", airtableBlock),
   ("gmail_search_emails", gmailBlock),
   ("google-sheets-crud", sheetsBlock)]

/-- Body of a POST /block/execute request (`params` and `credentials`
default to `{}`). -/
structure DispatchReq : Type where
  blockId : String
  operation : String
  params : JSObj
  credentials : Credentials

/-- Where a dispatch ends up before any external call: the handler's
control flow through registry lookup, credential/input normalization and
the required-fields check. -/
inductive RouteResult : Type where
  | blockNotFound
  | operationNotFound
  | nativeRoute (n : NativeOp) (credentials : Credentials) (inputs : JSObj)
  | missingRequired
  | restRoute (t : TemplatedOp) (credentials : Credentials) (inputs : JSObj)
      (baseurl : Option String)

/-- The routing part of the POST /block/execute handler: registry lookup,
the native branch's alias/input normalization, and the templated branch's
`requiredFields` check.  Credentials are normalized only on the native
branch, exactly as in the source. -/
def route (req : DispatchReq) : RouteResult :=
  match assoc blockConfigs req.blockId with
  | none => .blockNotFound
  | some block =>
    match assoc block.operations req.operation with
    | none => .operationNotFound
    | some (.native n) => .nativeRoute n (normCreds req.credentials) (normalizeParams req.params)
    | some (.templated t) =>
      if t.requiredFields.any (fun f => !(truthyV (jsGet req.params f))) then
        .missingRequired
      else
        .restRoute t req.credentials req.params block.baseurl

/-- `Sheet1!A${Number(inputs.rowIndex) + 1}`. -/
def sheetsUpdateRange (inputs : JSObj) : String :=
  match jsNumber (jsGet inputs "rowIndex") with
  | some n => "Sheet1!A" ++ toString (n + 1)
  | none => "Sheet1!ANaN"

/-- The first external call a native operation issues. -/
def nativeFirstCall (n : NativeOp) (inputs : JSObj) : ExtCall :=
  match n with
  | .gmailFetch => .gmailList
  | .sheetsFetch => .sheetsGet
  | .sheetsCreate => .sheetsAppend "Sheet1!A1" (jsGet inputs "valuesArray")
  | .sheetsUpdate => .sheetsUpdate (sheetsUpdateRange inputs) (jsGet inputs "valuesArray")
  | .sheetsDelete =>
    .sheetsBatchDelete (jsNumber (jsGet inputs "rowIndex"))
      ((jsNumber (jsGet inputs "rowIndex")).map (fun n => n + 1))

/-- An error thrown by an `axios` / SDK call: the handler reads only
`err.message` (an absent message is modelled as `""`); `status` records
the downstream HTTP status when the failure was an HTTP error response. -/
structure AxiosErr : Type where
  message : String
  status : Option Nat

/-- The external collaborators of one dispatch: the Gmail search results
and per-message metadata, the sheet contents, the templated REST call's
outcome, and whether the native SDK call rejects (with `err.message`). -/
structure Env : Type where
  gmailMessages : List String
  gmailHeaders : String → List (String × String)
  gmailSnippet : String → String
  sheetRows : List (List String)
  restResult : Except AxiosErr JSVal
  nativeFailure : Option String

/-- The record the gmail fetch strategy builds for one message: the
From/Subject/Date headers flattened into `fields` plus the snippet. -/
def gmailRecord (env : Env) (id : String) : JSVal :=
  .obj [("id", .str id),
        ("fields", .obj
          (((env.gmailHeaders id).filter
              (fun h => h.1 = "From" || h.1 = "Subject" || h.1 = "Date")).map
            (fun h => (h.1, JSVal.str h.2)) ++
           [("Snippet", .str (env.gmailSnippet id))]))]

/-- The `google-sheets-crud.fetch` result: keep rows that are nonempty
with a nonblank first cell, then shape them as `{id, fields: {name,
email}}` records. -/
def sheetsFetchResult (rows : List (List String)) : JSVal :=
  let kept := rows.filter (fun row => decide (0 < row.length) && !(row.headD "").trim == "")
  .obj [("data", .arr (kept.enum.map (fun p =>
    JSVal.obj [("id", .num p.1), ("fields", .obj
      [("name", .str (p.2.headD "")), ("email", .str (p.2.getD 1 ""))])])))]

/-- The external calls a native operation issues when nothing throws. -/
def nativeCalls (n : NativeOp) (inputs : JSObj) (env : Env) : List ExtCall :=
  match n with
  | .gmailFetch => .gmailList :: env.gmailMessages.map (fun id => .gmailGetDetail id)
  | _ => [nativeFirstCall n inputs]

/-- The payload a native operation returns when nothing throws. -/
def nativeResult (n : NativeOp) (_inputs : JSObj) (env : Env) : JSVal :=
  match n with
  | .gmailFetch => .obj [("records", .arr (env.gmailMessages.map (gmailRecord env)))]
  | .sheetsFetch => sheetsFetchResult env.sheetRows
  | .sheetsCreate => .obj [("status", .str "success")]
  | .sheetsUpdate => .obj [("status", .str "updated")]
  | .sheetsDelete => .obj [("status", .str "deleted")]

/-- The JSON response of POST /block/execute. -/
structure BlockResponse : Type where
  status : Nat
  error : Option String
  requiresReauth : Option Bool
  payload : Option JSVal

/-- The catch clause of the handler:
`res.status(500).json({ error: err.message || "Block execution failed" })`. -/
def catchResponse (m : String) : BlockResponse :=
  { status := 500, error := some (if m = "" then "Block execution failed" else m),
    requiresReauth := none, payload := none }

/-- `out[op.responseField]`. -/
def jsIndex (v : JSVal) (f : String) : JSVal :=
  match v with
  | .obj kvs => (jsGet kvs f).getD .undefined
  | _ => .undefined

/-- Execution of a routed dispatch against the environment: the error
replies, the native `execute` call, or the templated REST call with
response-field extraction, each with the external calls issued. -/
def execRoute (r : RouteResult) (env : Env) : BlockResponse × List ExtCall :=
  match r with
  | .blockNotFound =>
    ({ status := 400, error := some "Block not found",
       requiresReauth := none, payload := none }, [])
  | .operationNotFound =>
    ({ status := 400, error := some "Operation not found",
       requiresReauth := none, payload := none }, [])
  | .missingRequired =>
    ({ status := 400, error := some "Missing required fields",
       requiresReauth := none, payload := none }, [])
  | .nativeRoute n _ inputs =>
    match env.nativeFailure with
    | some m => (catchResponse m, [nativeFirstCall n inputs])
    | none =>
      ({ status := 200, error := none, requiresReauth := none,
         payload := some (nativeResult n inputs env) }, nativeCalls n inputs env)
  | .restRoute t creds inputs baseurl =>
    let url := t.buildUrl inputs baseurl
    let headers := t.buildHeaders creds
    let payload := t.buildPayload.map (fun b => b inputs)
    let call := ExtCall.http t.method.toLower url headers payload
    match env.restResult with
    | .error e => (catchResponse e.message, [call])
    | .ok data =>
      let out := match t.responseField with
        | some f => jsIndex data f
        | none => data
      let out2 := match t.transform with
        | some tr => tr out
        | none => out
      ({ status := 200, error := none, requiresReauth := none,
         payload := some out2 }, [call])

/-- The whole POST /block/execute handler: route, then execute. -/
def dispatchRun (req : DispatchReq) (env : Env) : BlockResponse × List ExtCall :=
  execRoute (route req) env

/-- A benign environment: no gmail messages, no sheet rows, a successful
empty REST response, no SDK failure. -/
def envOk : Env :=
  { gmailMessages := [], gmailHeaders := fun _ => [], gmailSnippet := fun _ => "",
    sheetRows := [], restResult := .ok (.obj []), nativeFailure := none }

/-! ## Dispatch theorems -/

/-- Helper shared by the required-fields theorems: a templated dispatch
with some required field falsy in `params` is rejected before any
external call. -/
theorem missingRequired_of_falsy (req : DispatchReq) (env : Env) (b : Block)
    (t : TemplatedOp) (f : String)
    (hb : assoc blockConfigs req.blockId = some b)
    (ho : assoc b.operations req.operation = some (.templated t))
    (hf : f ∈ t.requiredFields)
    (hv : truthyV (jsGet req.params f) = false) :
    dispatchRun req env =
      ({ status := 400, error := some "Missing required fields",
         requiresReauth := none, payload := none }, []) := by
  have hany : t.requiredFields.any (fun g => !(truthyV (jsGet req.params g))) = true :=
    List.any_eq_true.mpr ⟨f, hf, by simp [hv]⟩
  have hroute : route req = .missingRequired := by
    simp [route, hb, ho, hany]
  simp [dispatchRun, hroute, execRoute]

/-- C7: a dispatch that resolves to a templated REST strategy with a field
of its `requiredFields` absent from `params` answers 400 "Missing required
fields" and issues no external call. -/
theorem dispatch_missing_required_field (req : DispatchReq) (env : Env) (b : Block)
    (t : TemplatedOp) (f : String)
    (hb : assoc blockConfigs req.blockId = some b)
    (ho : assoc b.operations req.operation = some (.templated t))
    (hf : f ∈ t.requiredFields)
    (hmiss : jsGet req.params f = none) :
    dispatchRun req env =
      ({ status := 400, error := some "Missing required fields",
         requiresReauth := none, payload := none }, []) :=
  missingRequired_of_falsy req env b t f hb ho hf (by simp [truthyV, hmiss])

/-- Witness for C7: `airtable-crud.update` with `recordId` absent. -/
theorem dispatch_missing_required_field_witness :
    dispatchRun
      { blockId := "airtable-crud", operation := "update",
        params := [("baseId", .str "b1"), ("tableName", .str "t1")],
        credentials := emptyCreds } envOk =
      ({ status := 400, error := some "Missing required fields",
         requiresReauth := none, payload := none }, []) := by
  exact dispatch_missing_required_field
    { blockId := "airtable-crud", operation := "update",
      params := [("baseId", .str "b1"), ("tableName", .str "t1")],
      credentials := emptyCreds } envOk airtableBlock airtableUpdateOp "recordId"
    rfl rfl (by simp [airtableUpdateOp]) rfl

/-- C10: a dispatch that resolves to a templated REST strategy with a
required field present in `params` but bound to a falsy value — `""`, `0`,
`false` or `null` — is treated exactly like an absent field: 400 "Missing
required fields" and no external call. -/
theorem dispatch_falsy_required_field (req : DispatchReq) (env : Env) (b : Block)
    (t : TemplatedOp) (f : String) (v : JSVal)
    (hb : assoc blockConfigs req.blockId = some b)
    (ho : assoc b.operations req.operation = some (.templated t))
    (hf : f ∈ t.requiredFields)
    (hv : jsGet req.params f = some v)
    (hfalsy : v = .str "" ∨ v = .num 0 ∨ v = .bool false ∨ v = .null) :
    dispatchRun req env =
      ({ status := 400, error := some "Missing required fields",
         requiresReauth := none, payload := none }, []) := by
  apply missingRequired_of_falsy req env b t f hb ho hf
  rcases hfalsy with h | h | h | h <;> subst h <;> simp [truthyV, hv, truthy]

/-- Witness for C10: `airtable-crud.fetch` with `baseId` bound to `""`. -/
theorem dispatch_falsy_required_field_witness :
    dispatchRun
      { blockId := "airtable-crud", operation := "fetch",
        params := [("baseId", .str ""), ("tableName", .str "t1")],
        credentials := emptyCreds } envOk =
      ({ status := 400, error := some "Missing required fields",
         requiresReauth := none, payload := none }, []) := by
  exact dispatch_falsy_required_field
    { blockId := "airtable-crud", operation := "fetch",
      params := [("baseId", .str ""), ("tableName", .str "t1")],
      credentials := emptyCreds } envOk airtableBlock airtableFetchOp "baseId" (.str "")
    rfl rfl (by simp [airtableFetchOp]) rfl (Or.inl rfl)

/-- C6: a dispatch naming an unknown `blockId` answers 400 "Block not
found"; one naming a known block but an operation the block does not have
answers 400 "Operation not found"; the two messages are distinct; neither
case issues any external call.  The registry `blockConfigs` is a fixed
constant and the handler is a pure function of the request and the
environment, so no dispatch modifies it. -/
theorem dispatch_unknown_block_or_operation (req : DispatchReq) (env : Env) :
    (assoc blockConfigs req.blockId = none →
      dispatchRun req env =
        ({ status := 400, error := some "Block not found",
           requiresReauth := none, payload := none }, [])) ∧
    (∀ b, assoc blockConfigs req.blockId = some b →
      assoc b.operations req.operation = none →
      dispatchRun req env =
        ({ status := 400, error := some "Operation not found",
           requiresReauth := none, payload := none }, [])) ∧
    ("Block not found" ≠ "Operation not found") := by
  refine ⟨?_, ?_, by decide⟩
  · intro h
    have hroute : route req = .blockNotFound := by
      simp [route, h]
    simp [dispatchRun, hroute, execRoute]
  · intro b hb ho
    have hroute : route req = .operationNotFound := by
      simp [route, hb, ho]
    simp [dispatchRun, hroute, execRoute]

/-- C3 amended: the dispatch path has no auth guard — no dispatch via
POST /block/execute makes any call to the OAuth token endpoint, whatever
the expiry state of the carried credentials.  (`isTokenExpired` exists in
the source but is never invoked by any handler.) -/
theorem dispatch_no_token_refresh (req : DispatchReq) (env : Env) :
    ((dispatchRun req env).2.countP isTokenRefreshCall) = 0 := by
  rw [List.countP_eq_zero]
  intro c hc
  unfold dispatchRun at hc
  cases hr : route req <;> rw [hr] at hc
  case blockNotFound => simp [execRoute] at hc
  case operationNotFound => simp [execRoute] at hc
  case missingRequired => simp [execRoute] at hc
  case nativeRoute n cr inputs =>
    cases hn : env.nativeFailure with
    | some m =>
      simp [execRoute, hn] at hc
      subst hc
      cases n <;> simp [nativeFirstCall, isTokenRefreshCall]
    | none =>
      simp [execRoute, hn] at hc
      cases n with
      | gmailFetch =>
        simp [nativeCalls] at hc
        rcases hc with h | ⟨id, _, h⟩ <;> subst h <;> simp [isTokenRefreshCall]
      | sheetsFetch =>
        simp [nativeCalls, nativeFirstCall] at hc
        subst hc
        simp [isTokenRefreshCall]
      | sheetsCreate =>
        simp [nativeCalls, nativeFirstCall] at hc
        subst hc
        simp [isTokenRefreshCall]
      | sheetsUpdate =>
        simp [nativeCalls, nativeFirstCall] at hc
        subst hc
        simp [isTokenRefreshCall]
      | sheetsDelete =>
        simp [nativeCalls, nativeFirstCall] at hc
        subst hc
        simp [isTokenRefreshCall]
  case restRoute t cr inputs burl =>
    cases he : env.restResult with
    | error e =>
      simp [execRoute, he] at hc
      subst hc
      simp [isTokenRefreshCall]
    | ok d =>
      simp [execRoute, he] at hc
      subst hc
      simp [isTokenRefreshCall]

/-- A dispatch request carrying a bundle whose `expires_at` is long past
and whose `refresh_token` is present, aimed at a valid native operation. -/
def reqExpired : DispatchReq :=
  { blockId := "google-sheets-crud", operation := "fetch", params := [],
    credentials :=
      { emptyCreds with
        access_token := some "at",
        refresh_token := some "rt",
        expires_at := some 1000 } }

/-- C3 counterexample: at time 10^9 the carried bundle is expired by the
source's own `isTokenExpired` and has a refresh token, yet the dispatch
makes zero calls to the token endpoint, not exactly one — the handler
never consults `isTokenExpired` and never refreshes. -/
theorem dispatch_expired_no_refresh_counterexample :
    isTokenExpired 1000000000 { expires_at := reqExpired.credentials.expires_at } = true ∧
    truthyS reqExpired.credentials.refresh_token = true ∧
    ¬ (((dispatchRun reqExpired envOk).2.countP isTokenRefreshCall) = 1) := by
  refine ⟨by decide, by decide, ?_⟩
  have h : (dispatchRun reqExpired envOk).2 = [ExtCall.sheetsGet] := rfl
  rw [h]
  simp [List.countP, List.countP.go, isTokenRefreshCall]

/-- A well-formed `airtable-crud.fetch` dispatch request. -/
def reqAirtableFetch : DispatchReq :=
  { blockId := "airtable-crud", operation := "fetch",
    params := [("baseId", .str "b1"), ("tableName", .str "t1")],
    credentials := { emptyCreds with apiKey := some "k" } }

/-- The environment in which the downstream call fails with HTTP 401. -/
def env401 : Env :=
  { envOk with
    restResult := .error
      { message := "Request failed with status code 401", status := some 401 } }

/-- C4 counterexample: when the downstream call of a templated dispatch
fails with HTTP 401, the response is the generic 500 envelope with no
`requiresReauth` flag — not an AuthError carrying `requiresReauth=true`. -/
theorem dispatch_401_generic_counterexample :
    env401.restResult = .error
      { message := "Request failed with status code 401", status := some 401 } ∧
    (dispatchRun reqAirtableFetch env401).1.status = 500 ∧
    (dispatchRun reqAirtableFetch env401).1.requiresReauth = none ∧
    (dispatchRun reqAirtableFetch env401).1.error =
      some "Request failed with status code 401" := by
  exact ⟨rfl, rfl, rfl, rfl⟩

/-- C4 amended: every thrown condition — a rejected templated REST call or
a rejected native SDK call — is converted to the single uniform envelope
`500 {error: err.message || "Block execution failed"}`; downstream 401/403
failures get the same generic treatment as every other failure and no
response of the handler ever carries a `requiresReauth` flag. -/
theorem dispatch_error_envelope (req : DispatchReq) (env : Env) :
    (∀ t c i burl e, route req = .restRoute t c i burl → env.restResult = .error e →
      (dispatchRun req env).1 = catchResponse e.message) ∧
    (∀ n c i m, route req = .nativeRoute n c i → env.nativeFailure = some m →
      (dispatchRun req env).1 = catchResponse m) ∧
    (∀ m, (catchResponse m).status = 500 ∧ (catchResponse m).requiresReauth = none) := by
  refine ⟨?_, ?_, fun m => ⟨rfl, rfl⟩⟩
  · intro t c i burl e hr he
    simp [dispatchRun, hr, execRoute, he]
  · intro n c i m hr hm
    simp [dispatchRun, hr, execRoute, hm]

/-- An `airtable-crud.fetch` dispatch whose credentials use the camelCase
`accessToken` and the snake_case `client_id` spellings. -/
def reqCamelCreds : DispatchReq :=
  { blockId := "airtable-crud", operation := "fetch",
    params := [("baseId", .str "b1"), ("tableName", .str "t1")],
    credentials :=
      { emptyCreds with
        accessToken := some "tok",
        client_id := some "cid",
        apiKey := some "k" } }

/-- C5 counterexample: a templated dispatch hands the strategy the raw
request credentials — the supplied camelCase `accessToken` and snake_case
`client_id` are not copied onto the canonical `access_token`/`clientId`
fields (as `normCreds` would do, and does on the native branch): the alias
normalization happens only in the native branch. -/
theorem templated_creds_not_normalized_counterexample :
    route reqCamelCreds = .restRoute airtableFetchOp reqCamelCreds.credentials
      reqCamelCreds.params (some "https://api.airtable.com/v0") ∧
    reqCamelCreds.credentials.accessToken = some "tok" ∧
    reqCamelCreds.credentials.access_token = none ∧
    reqCamelCreds.credentials.client_id = some "cid" ∧
    reqCamelCreds.credentials.clientId = none ∧
    (normCreds reqCamelCreds.credentials).access_token = some "tok" ∧
    (normCreds reqCamelCreds.credentials).clientId = some "cid" := by
  exact ⟨rfl, rfl, rfl, rfl, rfl, rfl, rfl⟩

/-- Helper: `normCreds` fills `clientId` from `client_id` when the
canonical spelling is falsy and the alias is truthy. -/
theorem normCreds_clientId_of (c : Credentials) :
    truthyS c.clientId = false → truthyS c.client_id = true →
    (normCreds c).clientId = c.client_id := by
  intro h1 h2
  simp [normCreds, h1, h2]
  repeat' split
  all_goals rfl

/-- Helper: `normCreds` fills `secretId` from `client_secret` when the
canonical spelling is falsy and the alias is truthy. -/
theorem normCreds_secretId_of (c : Credentials) :
    truthyS c.secretId = false → truthyS c.client_secret = true →
    (normCreds c).secretId = c.client_secret := by
  intro h1 h2
  simp only [normCreds]
  split
  all_goals simp [h1, h2]
  all_goals repeat' split
  all_goals rfl

/-- Helper: `normCreds` fills `access_token` from `accessToken` when the
canonical spelling is falsy. -/
theorem normCreds_access_token_of (c : Credentials) :
    truthyS c.access_token = false →
    (normCreds c).access_token = c.accessToken := by
  intro h1
  simp only [normCreds]
  split
  all_goals split
  all_goals simp [h1]

/-- C5 amended: only the native branch normalizes credential aliases — a
native strategy receives `normCreds` of the request credentials, in which
`clientId` is filled from `client_id`, `secretId` from `client_secret` and
`access_token` from `accessToken` when the canonical spelling is absent;
templated strategies receive the request credentials unmodified (their
header builders read `apiKey`, which has no alias). -/
theorem credential_alias_normalization (req : DispatchReq) :
    (∀ n c i, route req = .nativeRoute n c i → c = normCreds req.credentials) ∧
    (∀ t c i burl, route req = .restRoute t c i burl → c = req.credentials) ∧
    (truthyS req.credentials.clientId = false → truthyS req.credentials.client_id = true →
      (normCreds req.credentials).clientId = req.credentials.client_id) ∧
    (truthyS req.credentials.secretId = false → truthyS req.credentials.client_secret = true →
      (normCreds req.credentials).secretId = req.credentials.client_secret) ∧
    (truthyS req.credentials.access_token = false →
      (normCreds req.credentials).access_token = req.credentials.accessToken) := by
  refine ⟨?_, ?_, ?_, ?_, ?_⟩
  · intro n c i h
    unfold route at h
    split at h
    · exact absurd h (by simp)
    split at h
    · exact absurd h (by simp)
    · rw [RouteResult.nativeRoute.injEq] at h
      exact h.2.1.symm
    · split at h <;> exact absurd h (by simp)
  · intro t c i burl h
    unfold route at h
    split at h
    · exact absurd h (by simp)
    split at h
    · exact absurd h (by simp)
    · exact absurd h (by simp)
    · split at h
      · exact absurd h (by simp)
      · rw [RouteResult.restRoute.injEq] at h
        exact h.2.1.symm
  · exact normCreds_clientId_of req.credentials
  · exact normCreds_secretId_of req.credentials
  · exact normCreds_access_token_of req.credentials

/-- The C9 dispatch request:
`{rowIndex: 2, values: ["Alice","a@x.com"]}` to `google-sheets-crud.update`. -/
def reqSheetsUpdate : DispatchReq :=
  { blockId := "google-sheets-crud", operation := "update",
    params := [("rowIndex", .num 2), ("values", .arr [.str "Alice", .str "a@x.com"])],
    credentials :=
      { emptyCreds with
        clientId := some "ci",
        secretId := some "si",
        access_token := some "at" } }

/-- C9: dispatching `{rowIndex: 2, values: ["Alice","a@x.com"]}` to the
Google Sheets update operation issues exactly one sheet update whose range
is `Sheet1!A3` — the 0-indexed input row 2 mapped to 1-indexed sheet
addressing by the fixed offset `rowIndex + 1` of the source (no additional
header-row offset), which addresses the 3rd row. -/
theorem sheets_update_row_range :
    (∃ vs, (dispatchRun reqSheetsUpdate envOk).2 =
      [ExtCall.sheetsUpdate ("Sheet1!A" ++ toString ((2 : Int) + 1)) vs]) ∧
    "Sheet1!A" ++ toString ((2 : Int) + 1) = "Sheet1!A3" := by
  exact ⟨⟨_, rfl⟩, rfl⟩
